import Mathlib

/-!
Shallow embedding of the beam-analysis engine
(`src/src/utils/calculations.ts`: the exported helpers and the
`BeamAnalysis` component `calculateSectionProperties`,
`calculateReactions`, `calculateShear`, `calculateMoment`,
`calculateTorsion`, `calculateStresses`, `generateDiagramData`).

Numbers are modelled by `ℚ`.  In JavaScript, `Number(v.toFixed(3))`
is modelled by `round3` (round to the nearest multiple of 1/1000).
`undefined` optional fields are modelled by `Option ℚ`; the JS
truthiness guard `if (load.length)` passes exactly for a present,
nonzero value.  `ℚ` has no NaN/Infinity, so `x / 0 = 0` silently;
where a claim is about division-by-zero reaching an output we use a
checked division `cdiv` returning `none` for a zero divisor, which
is exactly when IEEE arithmetic produces a non-finite value here.
-/

namespace Beam

inductive LoadType where
  | point
  | distributed
  | moment
  | torsion
deriving DecidableEq, Repr

/-- The `Load` record (`{ id, type, position, magnitude, length? }`). -/
structure Load where
  id : ℤ
  type : LoadType
  position : ℚ
  magnitude : ℚ
  length : Option ℚ := none
deriving DecidableEq, Repr

inductive SupportType where
  | pin
  | roller
  | fixed
deriving DecidableEq, Repr

/-- The `Reactions` record returned by `calculateReactions`. -/
structure Reactions where
  reactionA : ℚ
  reactionB : ℚ
  momentA : ℚ
  momentB : ℚ
deriving DecidableEq, Repr

/-- The `ValidationResult` record (`{ isValid, message? }`). -/
structure ValidationResult where
  isValid : Bool
  message : Option String := none
deriving DecidableEq, Repr

/-- The `SectionProperties` record returned by `calculateSectionProperties`. -/
structure SectionProperties where
  area : ℚ
  momentOfInertia : ℚ
  sectionModulus : ℚ
  polarMomentOfInertia : ℚ
  torsionalConstant : ℚ
deriving DecidableEq, Repr

/-- One entry of the diagram produced by the exported
`generateDiagramData` (utils variant: position, shear, moment). -/
structure DiagramPoint where
  position : ℚ
  shear : ℚ
  moment : ℚ
deriving DecidableEq, Repr

/-- Model of `Number(v.toFixed(3))`: round to the nearest
thousandth. -/
def round3 (q : ℚ) : ℚ := ((round (1000 * q) : ℤ) : ℚ) / 1000

/-- Checked division: `none` exactly when the divisor is zero, the
case where IEEE division yields a non-finite value (`±Infinity` or
`NaN`) in the JS source. -/
def cdiv (a b : ℚ) : Option ℚ := if b = 0 then none else some (a / b)

/-- Embeds `validateLoad` (utils, lines 13–44).  The JS
checks `isNaN(load.position)`, `isNaN(load.magnitude)` and, for a
distributed load, `isNaN(load.length)`; a missing `length` is
`undefined`, and `isNaN(undefined)` is `true`, so an absent length
is rejected.  `ℚ` has no NaN, so the NaN branches for present
numbers cannot fire in this model. -/
def validateLoad (load : Load) (beamLength : ℚ) : ValidationResult :=
  if load.position < 0 ∨ load.position > beamLength then
    { isValid := false, message := some "Load position must be between 0 and beamLength meters." }
  else if load.type = .distributed then
    match load.length with
    | none =>
        { isValid := false, message := some "Distributed load length must be positive." }
    | some len =>
        if len ≤ 0 then
          { isValid := false, message := some "Distributed load length must be positive." }
        else if load.position + len > beamLength then
          { isValid := false, message := some "Distributed load must fit within the beam length." }
        else { isValid := true }
  else { isValid := true }

/-- Embeds `calculateSectionProperties` (component, lines 182–200), as a
function of the width and height state. -/
def calculateSectionProperties (beamWidth beamHeight : ℚ) : SectionProperties :=
  let area := max (1/1000) (beamHeight * beamWidth)
  let momentOfInertia := (beamWidth * beamHeight ^ 3) / 12
  let sectionModulus := (2 * momentOfInertia) / beamHeight
  let a := max beamWidth beamHeight
  let b := min beamWidth beamHeight
  let torsionalConstant := a * b ^ 3 * (1/3 - (21/100) * (b / a) * (1 - (b / a) ^ 4 / 12))
  let polarMomentOfInertia := (beamWidth * beamHeight ^ 3 + beamHeight * beamWidth ^ 3) / 12
  { area := area
    momentOfInertia := momentOfInertia
    sectionModulus := sectionModulus
    polarMomentOfInertia := polarMomentOfInertia
    torsionalConstant := torsionalConstant }

/-- One step of the fixed-end-moment accumulation loop inside
`calculateReactions` (component, lines 230–241): only in-span
`point` loads contribute; state is `(momentA, momentB)`. -/
def femStep (sA sB span : ℚ) (m : ℚ × ℚ) (load : Load) : ℚ × ℚ :=
  let a := load.position - sA
  let b := sB - load.position
  if load.type = .point ∧ 0 ≤ a ∧ 0 ≤ b then
    let FEM := load.magnitude * a * b * b / (span * span)
    (m.1 + FEM, m.2 + (-FEM * (a / b)))
  else m

/-- The fixed-end-moment accumulation over the load list. -/
def femFold (loads : List Load) (sA sB span : ℚ) : ℚ × ℚ :=
  loads.foldl (femStep sA sB span) (0, 0)

/-- One step of the main reaction loop of `calculateReactions`
(component, lines 244–270): skips loads outside `[sA, sB]`, then
OVERWRITES `(reactionA, reactionB)` per load (`reactionB = ...;
reactionA = ...`, not `+=`).  The `distributed` case is guarded by
JS truthiness `if (load.length)`, so a missing or zero `length`
leaves the state unchanged; `torsion` has no switch case. -/
def primaryStep (sA sB span : ℚ) (r : ℚ × ℚ) (load : Load) : ℚ × ℚ :=
  if load.position < sA ∨ load.position > sB then r
  else
    let relativePosition := load.position - sA
    match load.type with
    | .point =>
        let reactionB := |load.magnitude| * relativePosition / span
        (|load.magnitude| - reactionB, reactionB)
    | .distributed =>
        match load.length with
        | some len =>
            if len ≠ 0 then
              let startX := max load.position sA
              let endX := min (load.position + len) sB
              let effectiveLength := endX - startX
              let totalForce := |load.magnitude| * effectiveLength
              let centerOfForce := startX + effectiveLength / 2 - sA
              let reactionB := totalForce * centerOfForce / span
              (totalForce - reactionB, reactionB)
            else r
        | none => r
    | .moment => (-(load.magnitude / span), load.magnitude / span)
    | .torsion => r

/-- The main reaction loop of `calculateReactions` over the load
list, starting from `reactionA = reactionB = 0`. -/
def primaryReactions (loads : List Load) (sA sB span : ℚ) : ℚ × ℚ :=
  loads.foldl (primaryStep sA sB span) (0, 0)

/-- Embeds `calculateReactions` (component, lines 220–291), as a function
of the load list, support positions and support types.  Returns
all zeros when the span is not positive; otherwise computes
fixed-end moments (when either support is `fixed`), the per-load
primary reactions, the fixed-support correction, and rounds every
output to 3 decimals. -/
def calculateReactions (loads : List Load) (sA sB : ℚ)
    (startSupport endSupport : SupportType) : Reactions :=
  let span := sB - sA
  if span ≤ 0 then { reactionA := 0, reactionB := 0, momentA := 0, momentB := 0 }
  else
    let fem :=
      if startSupport = .fixed ∨ endSupport = .fixed then femFold loads sA sB span
      else (0, 0)
    let pr := primaryReactions loads sA sB span
    let adjusted :=
      if startSupport = .fixed ∧ endSupport = .fixed then
        let adjustment := (fem.1 - fem.2) / span
        (pr.1 + adjustment, pr.2 - adjustment)
      else if startSupport = .fixed then
        (pr.1 + fem.1 / span, pr.2 - fem.1 / span)
      else if endSupport = .fixed then
        (pr.1 + fem.2 / span, pr.2 - fem.2 / span)
      else pr
    { reactionA := round3 adjusted.1
      reactionB := round3 adjusted.2
      momentA := round3 fem.1
      momentB := round3 fem.2 }

/-- One step of the load loop in the component variant of `calculateShear`
(lines 294–319): loads with `position > x` are skipped; `point`
subtracts the magnitude, `distributed` (with truthy `length`)
subtracts the partial resultant; `moment`/`torsion` have no case. -/
def shearStep (x : ℚ) (shear : ℚ) (load : Load) : ℚ :=
  if load.position > x then shear
  else
    match load.type with
    | .point => shear - load.magnitude
    | .distributed =>
        match load.length with
        | some len =>
            if len ≠ 0 then
              let endX := min x (load.position + len)
              let effectiveLength := endX - load.position
              if 0 < effectiveLength then shear - load.magnitude * effectiveLength
              else shear
            else shear
        | none => shear
    | .moment => shear
    | .torsion => shear

/-- The component variant of `calculateShear` (lines 294–319): zero outside
`[sA, sB]`, else `reactionA` minus load contributions, rounded. -/
def calculateShear (x : ℚ) (loads : List Load) (reactions : Reactions)
    (sA sB : ℚ) : ℚ :=
  if x < sA ∨ x > sB then 0
  else round3 (loads.foldl (shearStep x) reactions.reactionA)

/-- One step of the load loop in the component variant of `calculateMoment`
(lines 322–352). -/
def momentStep (x : ℚ) (moment : ℚ) (load : Load) : ℚ :=
  if load.position > x then moment
  else
    match load.type with
    | .point => moment - load.magnitude * (x - load.position)
    | .distributed =>
        match load.length with
        | some len =>
            if len ≠ 0 then
              let endX := min x (load.position + len)
              let effectiveLength := endX - load.position
              if 0 < effectiveLength then
                let centroid := load.position + effectiveLength / 2
                moment - load.magnitude * effectiveLength * (x - centroid)
              else moment
            else moment
        | none => moment
    | .moment => moment - load.magnitude
    | .torsion => moment

/-- The component variant of `calculateMoment` (lines 322–352): zero outside
`[sA, sB]`, else `reactionA·(x−sA)` (plus `momentA` when the start
support is `fixed`) minus load contributions, rounded. -/
def calculateMoment (x : ℚ) (loads : List Load) (reactions : Reactions)
    (sA sB : ℚ) (startSupport : SupportType) : ℚ :=
  if x < sA ∨ x > sB then 0
  else
    let m0 := reactions.reactionA * (x - sA) +
      (if startSupport = .fixed then reactions.momentA else 0)
    round3 (loads.foldl (momentStep x) m0)

/-- The component variant of `calculateTorsion` (lines 203–217): zero outside
`[sA, sB]`, else the sum of magnitudes of torsion loads with
`position ≤ x`, rounded. -/
def calculateTorsion (x : ℚ) (loads : List Load) (sA sB : ℚ) : ℚ :=
  if x < sA ∨ x > sB then 0
  else
    round3 (loads.foldl (fun torsion load =>
      if load.type ≠ .torsion ∨ load.position > x then torsion
      else torsion + load.magnitude) 0)

/-- Exported `calculateShear` (utils, lines 46–61).  The
`distributed` case reads `load.length` with no guard; for a missing
length the JS source produces NaN, which `ℚ` cannot represent, so a
missing length is read as 0 here (no claim depends on that field of
a diagram point). -/
def calculateShearUtil (x : ℚ) (loads : List Load) : ℚ :=
  loads.foldl (fun shear load =>
    match load.type with
    | .point => shear + (if x > load.position then load.magnitude else 0)
    | .distributed =>
        let len := load.length.getD 0
        if x ≤ load.position then shear
        else if x ≤ load.position + len then
          shear + load.magnitude * (x - load.position)
        else shear + load.magnitude * len
    | _ => shear) 0

/-- Exported `calculateMoment` (utils, lines 63–81); same remark
about an absent `length` as for `calculateShearUtil`. -/
def calculateMomentUtil (x : ℚ) (loads : List Load) : ℚ :=
  loads.foldl (fun moment load =>
    match load.type with
    | .point =>
        moment + (if x > load.position then load.magnitude * (x - load.position) else 0)
    | .distributed =>
        let len := load.length.getD 0
        if x ≤ load.position then moment
        else if x ≤ load.position + len then
          let partLen := x - load.position
          moment + load.magnitude * partLen * partLen / 2
        else moment + load.magnitude * len * (x - load.position - len / 2)
    | .moment => moment + (if x > load.position then load.magnitude else 0)
    | .torsion => moment) 0

/-- Exported `generateDiagramData` (utils, lines 82–93): 101 samples
`x = i·(beamLength/100)`, each emitted with every field rounded to 3
decimals (`Number(v.toFixed(3))`).  The component variant
(lines 387–401) computes the `position` field identically. -/
def generateDiagramData (beamLength : ℚ) (loads : List Load) : List DiagramPoint :=
  let points : ℕ := 100
  let dx := beamLength / points
  (List.range (points + 1)).map (fun (i : ℕ) =>
    let x := (i : ℚ) * dx
    { position := round3 x
      shear := round3 (calculateShearUtil x loads)
      moment := round3 (calculateMomentUtil x loads) })

/-- The `sectionModulus` division of `calculateSectionProperties`
with division-by-zero made observable: `(2·I)/beamHeight`. -/
def sectionModulusChecked (beamWidth beamHeight : ℚ) : Option ℚ :=
  cdiv (2 * ((beamWidth * beamHeight ^ 3) / 12)) beamHeight

/-- The `torsionalConstant` computation of
`calculateSectionProperties` with the `b/a` division-by-zero made
observable. -/
def torsionalConstantChecked (beamWidth beamHeight : ℚ) : Option ℚ := do
  let a := max beamWidth beamHeight
  let b := min beamWidth beamHeight
  let r ← cdiv b a
  pure (a * b ^ 3 * (1/3 - (21/100) * r * (1 - r ^ 4 / 12)))

/-- The component variant of `calculateStresses` (lines 355–384) with every
division that can produce a non-finite IEEE value made observable:
returns `(normalStress, shearStress, torsionalStress)` as
`Option ℚ`, `none` exactly where the JS source divides by zero (and
so emits `NaN`/`±Infinity`).  `vonMisesStress` involves `sqrt` and
is finite only if all three components are. -/
def calculateStressesChecked (x beamWidth beamHeight : ℚ) (loads : List Load)
    (reactions : Reactions) (sA sB : ℚ) (startSupport : SupportType) :
    Option ℚ × Option ℚ × Option ℚ :=
  let momentOfInertia := (beamWidth * beamHeight ^ 3) / 12
  let moment := calculateMoment x loads reactions sA sB startSupport
  let shear := calculateShear x loads reactions sA sB
  let torsion := calculateTorsion x loads sA sB
  let normalStress := do
    let s ← sectionModulusChecked beamWidth beamHeight
    let n ← cdiv |moment| s
    pure (round3 (n / 1000000))
  let q := (beamWidth * beamHeight * beamHeight) / 8
  let shearStress := do
    let v ← cdiv |shear * q| (momentOfInertia * beamWidth)
    pure (round3 (v / 1000000))
  let torsionalStress := do
    let jt ← torsionalConstantChecked beamWidth beamHeight
    let t ← cdiv |torsion * beamHeight| (2 * jt)
    pure (round3 (t / 1000000))
  (normalStress, shearStress, torsionalStress)

/-! Claim-side definitions: these follow the wording of the spec,
to be compared against the source-translated functions above. -/

/-- Section-property formulas exactly as the spec states them
(spec section 4.1), for comparison with
`calculateSectionProperties`. -/
def sectionPropertiesSpec (w h : ℚ) : SectionProperties :=
  { area := max (1/1000) (w * h)
    momentOfInertia := w * h ^ 3 / 12
    sectionModulus := 2 * (w * h ^ 3 / 12) / h
    polarMomentOfInertia := (w * h ^ 3 + h * w ^ 3) / 12
    torsionalConstant :=
      max w h * (min w h) ^ 3 *
        (1/3 - (21/100) * (min w h / max w h) * (1 - (min w h / max w h) ^ 4 / 12)) }

/-- The rule set `validateLoad` actually enforces: position within
`[0, beamLength]` and, for a distributed load, a present positive
length fitting in the beam. -/
def validLoadRules (load : Load) (beamLength : ℚ) : Prop :=
  0 ≤ load.position ∧ load.position ≤ beamLength ∧
  (load.type = .distributed →
    ∃ len, load.length = some len ∧ 0 < len ∧ load.position + len ≤ beamLength)

/-- The rule set the claim attributes to `validateLoad`: as
`validLoadRules` but additionally requiring `beamLength > 0`
(finiteness is automatic in `ℚ`). -/
def validLoadRulesClaim (load : Load) (beamLength : ℚ) : Prop :=
  0 < beamLength ∧ validLoadRules load beamLength

/-- Total transverse force magnitude a load applies, per the claim
wording (point magnitude, or distributed magnitude times length). -/
def totalAbsForce (load : Load) : ℚ :=
  match load.type with
  | .point => |load.magnitude|
  | .distributed => |load.magnitude| * load.length.getD 0
  | _ => 0

/-- Position of the resultant of a load (the load point, or the
midpoint of a distributed load). -/
def forceCentroid (load : Load) : ℚ :=
  match load.type with
  | .distributed => load.position + load.length.getD 0 / 2
  | _ => load.position

/-- A load lies inside the support span (negation of the skip guard
in the reaction loop). -/
def inSpan (load : Load) (sA sB : ℚ) : Prop :=
  ¬ (load.position < sA ∨ load.position > sB)

/-- A load of a kind that writes the primary reactions: `point`,
`distributed` with a present nonzero (JS-truthy) length, or
`moment`. -/
def effectiveKind (load : Load) : Prop :=
  load.type = .point ∨
  (load.type = .distributed ∧ ∃ len, load.length = some len ∧ len ≠ 0) ∨
  load.type = .moment

/-! Helper lemmas. -/

theorem round3_zero : round3 0 = 0 := by
  simp [round3]

theorem round3_eq_self {q : ℚ} (h : ∃ k : ℤ, (k : ℚ) / 1000 = q) : round3 q = q := by
  obtain ⟨k, hk⟩ := h
  have h1 : 1000 * q = (k : ℚ) := by rw [← hk]; ring
  rw [round3, h1, round_intCast, hk]

theorem abs_round3_sub (q : ℚ) : |round3 q - q| ≤ 1 / 2000 := by
  have h : round3 q - q = -((1000 * q - (round (1000 * q) : ℚ)) / 1000) := by
    rw [round3]; ring
  rw [h, abs_neg, abs_div]
  have hb := abs_sub_round (1000 * q)
  have h1000 : |(1000 : ℚ)| = 1000 := by norm_num
  rw [h1000]
  linarith [hb]

theorem round3_lt_round3 {a b : ℚ} (h : a + 1 / 1000 < b) : round3 a < round3 b := by
  rw [round3, round3]
  have ha := abs_sub_round (1000 * a)
  have hb := abs_sub_round (1000 * b)
  rw [abs_le] at ha hb
  have : ((round (1000 * a) : ℤ) : ℚ) < ((round (1000 * b) : ℤ) : ℚ) := by
    nlinarith [ha.1, ha.2, hb.1, hb.2]
  have hlt : (round (1000 * a) : ℤ) < round (1000 * b) := by exact_mod_cast this
  have : ((round (1000 * a) : ℤ) : ℚ) < ((round (1000 * b) : ℤ) : ℚ) := by exact_mod_cast hlt
  linarith

theorem foldl_mid_elim {α β : Type} (f : α → β → α) (init : α) (xs ys : List β) (d : β)
    (h : ∀ s, f s d = s) :
    List.foldl f init (xs ++ d :: ys) = List.foldl f init (xs ++ ys) := by
  rw [List.foldl_append, List.foldl_append, List.foldl_cons, h]

theorem foldl_id_of {α β : Type} (f : α → β → α) (s : α) (ys : List β)
    (h : ∀ y ∈ ys, ∀ t, f t y = t) : List.foldl f s ys = s := by
  induction ys generalizing s with
  | nil => rfl
  | cons y ys ih =>
      rw [List.foldl_cons, h y (List.mem_cons_self y ys)]
      exact ih s (fun z hz t => h z (List.mem_cons_of_mem _ hz) t)

theorem primaryStep_skip {sA sB span : ℚ} {y : Load}
    (h : y.position < sA ∨ y.position > sB) (r : ℚ × ℚ) :
    primaryStep sA sB span r y = r := by
  rw [primaryStep, if_pos h]

theorem primaryStep_const {sA sB span : ℚ} {l : Load}
    (hin : inSpan l sA sB) (heff : effectiveKind l) (r r' : ℚ × ℚ) :
    primaryStep sA sB span r l = primaryStep sA sB span r' l := by
  rw [primaryStep, primaryStep, if_neg hin, if_neg hin]
  rcases heff with ht | ⟨ht, len, hlen, hne⟩ | ht
  · rw [ht]
  · rw [ht]; simp only [hlen]; rw [if_pos hne, if_pos hne]
  · rw [ht]

/-- When neither support is `fixed` and the span is positive,
`calculateReactions` is the rounded primary pair with zero end
moments. -/
theorem calculateReactions_no_fixed (loads : List Load) (sA sB : ℚ)
    (s e : SupportType) (hspan : ¬ (sB - sA ≤ 0)) (hs : s ≠ .fixed) (he : e ≠ .fixed) :
    calculateReactions loads sA sB s e =
      { reactionA := round3 (primaryReactions loads sA sB (sB - sA)).1
        reactionB := round3 (primaryReactions loads sA sB (sB - sA)).2
        momentA := 0
        momentB := 0 } := by
  rw [calculateReactions]
  simp only [hspan, if_false, hs, he, or_self, and_self, if_false, round3_zero]

theorem pin_ne_fixed : (SupportType.pin = SupportType.fixed) = False := by simp

theorem roller_ne_fixed : (SupportType.roller = SupportType.fixed) = False := by simp

/-- Rounding each of two summands to 3 decimals moves their sum by
at most 1/1000. -/
theorem rounded_sum_close (a b t : ℚ) (h : a + b = t) :
    |round3 a + round3 b - t| ≤ 1/1000 := by
  have h1 := abs_round3_sub a
  have h2 := abs_round3_sub b
  have hsplit : round3 a + round3 b - t = (round3 a - a) + (round3 b - b) := by
    rw [← h]; ring
  rw [hsplit]
  calc |(round3 a - a) + (round3 b - b)|
      ≤ |round3 a - a| + |round3 b - b| := abs_add _ _
    _ ≤ 1/2000 + 1/2000 := add_le_add h1 h2
    _ = 1/1000 := by norm_num

/-! Claim theorems. -/

/-- C3: for every load set and every support pair with
`sB - sA ≤ 0` (including `sA = sB`), `calculateReactions` returns
all four outputs equal to zero (and, being a total function, does
not throw). -/
theorem C3_reactions_zero_on_nonpositive_span (loads : List Load) (sA sB : ℚ)
    (s e : SupportType) (h : sB - sA ≤ 0) :
    calculateReactions loads sA sB s e =
      { reactionA := 0, reactionB := 0, momentA := 0, momentB := 0 } := by
  rw [calculateReactions]
  simp only [h, if_true]

/-- Witness for C3 at the zero-length span `sA = sB = 1`. -/
theorem C3_witness :
    (1 : ℚ) - 1 ≤ 0 ∧
    calculateReactions [{ id := 1, type := .point, position := 1, magnitude := 10 }] 1 1
        .pin .roller =
      { reactionA := 0, reactionB := 0, momentA := 0, momentB := 0 } :=
  ⟨by norm_num,
   C3_reactions_zero_on_nonpositive_span _ 1 1 .pin .roller (by norm_num)⟩

/-- C4: beam length 5, a single point load (id 1) at 2.5 of
magnitude 50, pin at 0 and roller at 5: `calculateReactions` gives
`reactionA = reactionB = 25`, and `calculateMoment` gives
`moment(2.5) = 62.5` and `moment(0) = moment(5) = 0`. -/
theorem C4_midspan_point_load_scenario :
    (calculateReactions [{ id := 1, type := .point, position := 5/2, magnitude := 50 }]
        0 5 .pin .roller).reactionA = 25 ∧
    (calculateReactions [{ id := 1, type := .point, position := 5/2, magnitude := 50 }]
        0 5 .pin .roller).reactionB = 25 ∧
    calculateMoment (5/2) [{ id := 1, type := .point, position := 5/2, magnitude := 50 }]
        (calculateReactions [{ id := 1, type := .point, position := 5/2, magnitude := 50 }]
          0 5 .pin .roller) 0 5 .pin = 125/2 ∧
    calculateMoment 0 [{ id := 1, type := .point, position := 5/2, magnitude := 50 }]
        (calculateReactions [{ id := 1, type := .point, position := 5/2, magnitude := 50 }]
          0 5 .pin .roller) 0 5 .pin = 0 ∧
    calculateMoment 5 [{ id := 1, type := .point, position := 5/2, magnitude := 50 }]
        (calculateReactions [{ id := 1, type := .point, position := 5/2, magnitude := 50 }]
          0 5 .pin .roller) 0 5 .pin = 0 := by
  simp only [calculateReactions, primaryReactions, primaryStep, femFold, femStep,
    calculateMoment, momentStep, List.foldl, pin_ne_fixed, roller_ne_fixed,
    false_or, false_and, if_false, if_true]
  norm_num [round3, round_eq]

/-- C5 counterexample: with a pin start support and a fixed end
support, the fixed-end-moment block still accumulates into
`momentA`, so `momentA = 1.25 ≠ 0` for a single midspan point load
— refuting "if the start support is pin or roller then
`momentA = 0`". -/
theorem C5_counterexample :
    (calculateReactions [{ id := 1, type := .point, position := 1/2, magnitude := 10 }]
        0 1 .pin .fixed).momentA = 5/4 ∧ (5/4 : ℚ) ≠ 0 := by
  constructor
  · simp only [calculateReactions, primaryReactions, primaryStep, femFold, femStep,
      List.foldl, pin_ne_fixed, roller_ne_fixed, false_or, false_and, if_false, if_true]
    norm_num [round3, round_eq]
  · norm_num

/-- C5 (amended): `momentA` and `momentB` are zero whenever
NEITHER support is `fixed`; when either one is `fixed`, both fields
may be nonzero (the source computes them together). -/
theorem C5_moments_zero_without_fixed_support (loads : List Load) (sA sB : ℚ)
    (s e : SupportType) (hs : s ≠ .fixed) (he : e ≠ .fixed) :
    (calculateReactions loads sA sB s e).momentA = 0 ∧
    (calculateReactions loads sA sB s e).momentB = 0 := by
  by_cases hspan : sB - sA ≤ 0
  · rw [calculateReactions]
    simp only [hspan, if_true]
    exact ⟨trivial, trivial⟩
  · rw [calculateReactions_no_fixed loads sA sB s e hspan hs he]
    exact ⟨rfl, rfl⟩

/-- Witness for C5 (amended) with pin and roller supports. -/
theorem C5_witness :
    SupportType.pin ≠ SupportType.fixed ∧
    (calculateReactions [{ id := 1, type := .point, position := 1/2, magnitude := 10 }]
        0 1 .pin .roller).momentA = 0 ∧
    (calculateReactions [{ id := 1, type := .point, position := 1/2, magnitude := 10 }]
        0 1 .pin .roller).momentB = 0 :=
  ⟨by decide,
   C5_moments_zero_without_fixed_support _ 0 1 .pin .roller (by decide) (by decide)⟩

/-- C7: `calculateSectionProperties` returns exactly the formulas
the spec states (area floor-clamped at 1/1000, `I = w·h³/12`,
`S = 2I/h`, polar `= (w·h³ + h·w³)/12`, and the rectangular
torsional-constant approximation with `a = max w h`,
`b = min w h`). -/
theorem C7_section_properties_match_spec (w h : ℚ) :
    calculateSectionProperties w h = sectionPropertiesSpec w h := by
  rw [calculateSectionProperties, sectionPropertiesSpec]
  simp [SectionProperties.mk.injEq, mul_comm]

/-- C6 counterexample: for beam length 0 and a point load at
position 0, `validateLoad` returns valid, although the rule set the
claim states (which includes `beamLength > 0`) is violated. -/
theorem C6_counterexample :
    (validateLoad { id := 1, type := .point, position := 0, magnitude := 5 } 0).isValid
        = true ∧
    ¬ validLoadRulesClaim { id := 1, type := .point, position := 0, magnitude := 5 } 0 :=
  ⟨by simp [validateLoad], fun hcl => absurd hcl.1 (by norm_num)⟩

/-- C8: at the degenerate geometry `beamHeight = 0` the stress
evaluation divides by zero (NaN/Infinity in the JS source) in all
three stress components — the epsilon clamp protects only `area`,
which no stress formula uses.  Failing input: width 0.1, height 0,
beam of length 5 with a 50-unit point load at midspan, pin/roller
supports, evaluated at `x = 2.5`. -/
theorem C8_degenerate_geometry_divides_by_zero :
    calculateStressesChecked (5/2) (1/10) 0
        [{ id := 1, type := .point, position := 5/2, magnitude := 50 }]
        (calculateReactions [{ id := 1, type := .point, position := 5/2, magnitude := 50 }]
          0 5 .pin .roller) 0 5 .pin = (none, none, none) := by
  simp only [calculateStressesChecked, sectionModulusChecked, torsionalConstantChecked,
    cdiv]
  norm_num

/-- C1 counterexample: two point loads on the same span — the
second overwrites the reactions of the first, so
`reactionA + reactionB = 20` while the applied force total is 30;
force balance fails by 10, far beyond any floating-point
tolerance. -/
theorem C1_counterexample :
    ¬ (|(calculateReactions
          [{ id := 1, type := .point, position := 1/2, magnitude := 10 },
           { id := 2, type := .point, position := 1/2, magnitude := 20 }] 0 1 .pin .roller).reactionA
        + (calculateReactions
          [{ id := 1, type := .point, position := 1/2, magnitude := 10 },
           { id := 2, type := .point, position := 1/2, magnitude := 20 }] 0 1 .pin .roller).reactionB
        - (|(10 : ℚ)| + |(20 : ℚ)|)| ≤ 1/2) := by
  simp only [calculateReactions, primaryReactions, primaryStep, femFold, femStep,
    List.foldl, pin_ne_fixed, roller_ne_fixed, false_or, false_and, if_false, if_true]
  norm_num [round3, round_eq]

/-- C9 counterexample: for beam length 0.01 every sampled position
rounds to the same 3-decimal value, so the `position` sequence of
`generateDiagramData` is not strictly increasing. -/
theorem C9_counterexample :
    ¬ ((generateDiagramData (1/100) []).map (fun p => p.position)).Chain' (· < ·) := by
  have hr : List.range 101 = 0 :: 1 :: List.range' 2 99 := by
    rw [List.range_eq_range']; rfl
  intro h
  rw [generateDiagramData] at h
  simp only [hr, List.map_cons, List.chain'_cons] at h
  have h1 := h.1
  norm_num [round3, round_eq] at h1

/-- C2: the per-load reaction loop overwrites rather than sums —
for any loads `xs` before it (at least one of them overlapping the
span, so the load set has at least two overlapping loads), any
reaction-writing in-span load `l`, and any trailing loads `ys`
outside the span, the primary reactions of the whole list equal
those computed from `l` alone. -/
theorem C2_last_load_wins (xs ys : List Load) (l : Load) (sA sB span : ℚ)
    (hxs : ∃ x ∈ xs, inSpan x sA sB)
    (hl : inSpan l sA sB) (heff : effectiveKind l)
    (hys : ∀ y ∈ ys, y.position < sA ∨ y.position > sB) :
    primaryReactions (xs ++ l :: ys) sA sB span = primaryReactions [l] sA sB span := by
  rw [primaryReactions, primaryReactions, List.foldl_append, List.foldl_cons,
    List.foldl_cons, List.foldl_nil]
  rw [foldl_id_of _ _ ys (fun y hy t => primaryStep_skip (hys y hy) t)]
  exact primaryStep_const hl heff _ _

/-- Witness for C2: two in-span point loads; the reactions equal
those of the second load alone. -/
theorem C2_witness :
    inSpan { id := 2, type := .point, position := 1/2, magnitude := 20 } 0 1 ∧
    primaryReactions
        [{ id := 1, type := .point, position := 1/4, magnitude := 10 },
         { id := 2, type := .point, position := 1/2, magnitude := 20 }] 0 1 1 =
      primaryReactions [{ id := 2, type := .point, position := 1/2, magnitude := 20 }] 0 1 1 :=
  ⟨by rw [inSpan]; norm_num,
   C2_last_load_wins [{ id := 1, type := .point, position := 1/4, magnitude := 10 }] []
     { id := 2, type := .point, position := 1/2, magnitude := 20 } 0 1 1
     ⟨_, List.mem_singleton_self _, by rw [inSpan]; norm_num⟩
     (by rw [inSpan]; norm_num) (Or.inl rfl) (by simp)⟩

/-- C10: a `distributed` load whose `length` is absent or `0` fails
the JS truthiness guard and is silently skipped: `calculateReactions`,
`calculateShear` and `calculateMoment` return the same values as for
the load set with that load removed. -/
theorem C10_falsy_length_distributed_ignored (d : Load) (hd : d.type = .distributed)
    (hlen : d.length = none ∨ d.length = some 0)
    (xs ys : List Load) (sA sB : ℚ) (s e : SupportType) (x : ℚ) (r : Reactions) :
    calculateReactions (xs ++ d :: ys) sA sB s e = calculateReactions (xs ++ ys) sA sB s e ∧
    calculateShear x (xs ++ d :: ys) r sA sB = calculateShear x (xs ++ ys) r sA sB ∧
    calculateMoment x (xs ++ d :: ys) r sA sB s = calculateMoment x (xs ++ ys) r sA sB s := by
  have hfem : ∀ span m, femStep sA sB span m d = m := by
    intro span m
    simp [femStep, hd]
  have hprim : ∀ span rr, primaryStep sA sB span rr d = rr := by
    intro span rr
    rcases hlen with h | h <;> simp [primaryStep, hd, h]
  have hsh : ∀ sh, shearStep x sh d = sh := by
    intro sh
    rcases hlen with h | h <;> simp [shearStep, hd, h]
  have hmo : ∀ mo, momentStep x mo d = mo := by
    intro mo
    rcases hlen with h | h <;> simp [momentStep, hd, h]
  refine ⟨?_, ?_, ?_⟩
  · rw [calculateReactions, calculateReactions]
    simp only [femFold, primaryReactions]
    rw [foldl_mid_elim _ _ _ _ _ (hfem (sB - sA)),
      foldl_mid_elim _ _ _ _ _ (hprim (sB - sA))]
  · rw [calculateShear, calculateShear, foldl_mid_elim _ _ _ _ _ hsh]
  · simp only [calculateMoment]
    rw [foldl_mid_elim _ _ _ _ _ hmo]

/-- Witness for C10 with a zero-length distributed load between two
point loads. -/
theorem C10_witness :
    (Load.mk 2 .distributed (1/4) 5 (some 0)).type = .distributed ∧
    calculateReactions
        [{ id := 1, type := .point, position := 1/2, magnitude := 10 },
         Load.mk 2 .distributed (1/4) 5 (some 0)] 0 1 .pin .roller =
      calculateReactions [{ id := 1, type := .point, position := 1/2, magnitude := 10 }]
        0 1 .pin .roller :=
  ⟨rfl,
   (C10_falsy_length_distributed_ignored (Load.mk 2 .distributed (1/4) 5 (some 0)) rfl
     (Or.inr rfl) [{ id := 1, type := .point, position := 1/2, magnitude := 10 }] []
     0 1 .pin .roller 0 { reactionA := 0, reactionB := 0, momentA := 0, momentB := 0 }).1⟩

/-- C1 (amended): static balance holds for a load set with exactly
one load (point, or distributed lying inside the span) and no fixed
support: the unrounded primary reactions satisfy exact force
balance and exact moment balance about both supports, the end
moments are zero, and the rounded outputs satisfy force balance
within 1/1000.  (With two or more overlapping loads the balance
fails, because each load overwrites the previous reactions; see the
counterexample.) -/
theorem C1_equilibrium_single_load (l : Load) (sA sB : ℚ) (s e : SupportType)
    (hspan : 0 < sB - sA) (hs : s ≠ .fixed) (he : e ≠ .fixed)
    (hl : (l.type = .point ∧ sA ≤ l.position ∧ l.position ≤ sB) ∨
          (l.type = .distributed ∧ ∃ len, l.length = some len ∧ 0 < len ∧
            sA ≤ l.position ∧ l.position + len ≤ sB)) :
    (primaryReactions [l] sA sB (sB - sA)).1 + (primaryReactions [l] sA sB (sB - sA)).2
        = totalAbsForce l ∧
    (primaryReactions [l] sA sB (sB - sA)).2 * (sB - sA)
        = totalAbsForce l * (forceCentroid l - sA) ∧
    (primaryReactions [l] sA sB (sB - sA)).1 * (sB - sA)
        = totalAbsForce l * (sB - forceCentroid l) ∧
    (calculateReactions [l] sA sB s e).momentA = 0 ∧
    (calculateReactions [l] sA sB s e).momentB = 0 ∧
    |(calculateReactions [l] sA sB s e).reactionA +
        (calculateReactions [l] sA sB s e).reactionB - totalAbsForce l| ≤ 1/1000 := by
  have hspanne : sB - sA ≠ 0 := ne_of_gt hspan
  have hspan' : ¬ (sB - sA ≤ 0) := not_le.mpr hspan
  have hrec := calculateReactions_no_fixed [l] sA sB s e hspan' hs he
  have hmain : (primaryReactions [l] sA sB (sB - sA)).1 + (primaryReactions [l] sA sB (sB - sA)).2
        = totalAbsForce l ∧
      (primaryReactions [l] sA sB (sB - sA)).2 * (sB - sA)
        = totalAbsForce l * (forceCentroid l - sA) ∧
      (primaryReactions [l] sA sB (sB - sA)).1 * (sB - sA)
        = totalAbsForce l * (sB - forceCentroid l) := by
    rcases hl with ⟨ht, hpos1, hpos2⟩ | ⟨ht, len, hlen, hlenpos, hpos1, hpos2⟩
    · have hin : ¬ (l.position < sA ∨ l.position > sB) := by
        push_neg
        exact ⟨not_lt.mp (not_lt.mpr hpos1), hpos2⟩
      simp only [primaryReactions, List.foldl_cons, List.foldl_nil, primaryStep,
        hin, if_false, ht, totalAbsForce, forceCentroid]
      refine ⟨by ring, ?_, ?_⟩
      · field_simp
      · field_simp
        ring
    · have hposin : l.position ≤ sB := by
        have : l.position ≤ l.position + len := by linarith
        linarith
      have hin : ¬ (l.position < sA ∨ l.position > sB) := by
        push_neg
        exact ⟨not_lt.mp (not_lt.mpr hpos1), hposin⟩
      simp only [primaryReactions, List.foldl_cons, List.foldl_nil, primaryStep,
        hin, if_false, ht, hlen, ne_of_gt hlenpos, if_pos, totalAbsForce, forceCentroid,
        max_eq_left hpos1, min_eq_left hpos2, Option.getD_some]
      simp only [ne_eq, ne_of_gt hlenpos, not_false_iff, if_true]
      refine ⟨by ring, ?_, ?_⟩
      · field_simp
        ring
      · field_simp
        ring
  refine ⟨hmain.1, hmain.2.1, hmain.2.2, by rw [hrec], by rw [hrec], ?_⟩
  rw [hrec]
  exact rounded_sum_close _ _ _ hmain.1

/-- Witness for C1 (amended): single 10-unit point load at 1/2 on a
unit pin/roller span. -/
theorem C1_witness :
    (0 : ℚ) < 1 - 0 ∧
    ((primaryReactions [{ id := 1, type := .point, position := 1/2, magnitude := 10 }] 0 1 (1 - 0)).1
        + (primaryReactions [{ id := 1, type := .point, position := 1/2, magnitude := 10 }] 0 1 (1 - 0)).2
        = totalAbsForce { id := 1, type := .point, position := 1/2, magnitude := 10 } ∧
      (primaryReactions [{ id := 1, type := .point, position := 1/2, magnitude := 10 }] 0 1 (1 - 0)).2 * (1 - 0)
        = totalAbsForce { id := 1, type := .point, position := 1/2, magnitude := 10 } *
            (forceCentroid { id := 1, type := .point, position := 1/2, magnitude := 10 } - 0) ∧
      (primaryReactions [{ id := 1, type := .point, position := 1/2, magnitude := 10 }] 0 1 (1 - 0)).1 * (1 - 0)
        = totalAbsForce { id := 1, type := .point, position := 1/2, magnitude := 10 } *
            (1 - forceCentroid { id := 1, type := .point, position := 1/2, magnitude := 10 }) ∧
      (calculateReactions [{ id := 1, type := .point, position := 1/2, magnitude := 10 }] 0 1 .pin .roller).momentA = 0 ∧
      (calculateReactions [{ id := 1, type := .point, position := 1/2, magnitude := 10 }] 0 1 .pin .roller).momentB = 0 ∧
      |(calculateReactions [{ id := 1, type := .point, position := 1/2, magnitude := 10 }] 0 1 .pin .roller).reactionA +
          (calculateReactions [{ id := 1, type := .point, position := 1/2, magnitude := 10 }] 0 1 .pin .roller).reactionB -
          totalAbsForce { id := 1, type := .point, position := 1/2, magnitude := 10 }| ≤ 1/1000) :=
  ⟨by norm_num,
   C1_equilibrium_single_load { id := 1, type := .point, position := 1/2, magnitude := 10 }
     0 1 .pin .roller (by norm_num) (by simp) (by simp)
     (Or.inl ⟨rfl, by norm_num, by norm_num⟩)⟩

/-- C6 (amended): `validateLoad` never throws (it is a total
function into `ValidationResult`) and returns valid exactly when
the position lies in `[0, beamLength]` and, for a distributed load,
the length is present, positive and fits in the beam.  It does NOT
check that the beam length is positive (that check lives in
`validateBeamLength`), contrary to the claim; see the
counterexample. -/
theorem C6_validateLoad_iff (load : Load) (beamLength : ℚ) :
    (validateLoad load beamLength).isValid = true ↔ validLoadRules load beamLength := by
  rw [validateLoad, validLoadRules]
  by_cases h1 : load.position < 0 ∨ load.position > beamLength
  · simp only [h1, if_true]
    constructor
    · intro h
      exact absurd h (by simp)
    · rintro ⟨ha, hb, -⟩
      rcases h1 with h | h
      · exact absurd ha (not_le.mpr h)
      · exact absurd hb (not_le.mpr h)
  · push_neg at h1
    obtain ⟨ha, hb⟩ := h1
    have hin : ¬ (load.position < 0 ∨ load.position > beamLength) := by
      push_neg
      exact ⟨ha, hb⟩
    simp only [hin, if_false]
    by_cases ht : load.type = .distributed
    · simp only [ht, if_true]
      cases hlen : load.length with
      | none => simp [hlen]
      | some len =>
          by_cases hle : len ≤ 0
          · simp only [hle, if_true]
            constructor
            · intro h
              exact absurd h (by simp)
            · rintro ⟨-, -, hdist⟩
              obtain ⟨len', hlen', hpos', -⟩ := hdist (by simp)
              obtain rfl : len = len' := by injection hlen'
              exact absurd hpos' (not_lt.mpr hle)
          · simp only [hle, if_false]
            by_cases hfit : load.position + len > beamLength
            · simp only [hfit, if_true]
              constructor
              · intro h
                exact absurd h (by simp)
              · rintro ⟨-, -, hdist⟩
                obtain ⟨len', hlen', -, hfit'⟩ := hdist (by simp)
                obtain rfl : len = len' := by injection hlen'
                exact absurd hfit' (not_le.mpr hfit)
            · simp only [hfit, if_false]
              constructor
              · intro _
                refine ⟨ha, hb, fun _ => ⟨len, rfl, lt_of_not_le hle, le_of_not_lt hfit⟩⟩
              · intro _
                trivial
    · simp [ht, ha, hb]

/-- C9 (amended): `generateDiagramData` always returns exactly 101
points; when `beamLength` exceeds 0.1 and is a whole number of
thousandths (so that the 3-decimal rounding of the positions is
injective on the stations and exact at the end), the `position`
sequence is strictly increasing from 0 to `beamLength`.  For
smaller beams the rounding collapses adjacent positions; see the
counterexample. -/
theorem C9_diagram_positions (L : ℚ) (loads : List Load)
    (hL : 1/10 < L) (hmul : ∃ k : ℤ, (k : ℚ) / 1000 = L) :
    (generateDiagramData L loads).length = 101 ∧
    ((generateDiagramData L loads).map (fun p => p.position)).Chain' (· < ·) ∧
    ((generateDiagramData L loads).map (fun p => p.position))[0]? = some 0 ∧
    ((generateDiagramData L loads).map (fun p => p.position))[100]? = some L := by
  have hmap : (generateDiagramData L loads).map (fun p => p.position)
      = (List.range 101).map (fun i : ℕ => round3 ((i : ℚ) * (L / (100 : ℕ)))) := by
    rw [generateDiagramData, List.map_map]
    rfl
  refine ⟨?_, ?_, ?_, ?_⟩
  · rw [generateDiagramData]
    simp
  · rw [hmap, List.chain'_map]
    have h101 : (101 : ℕ) = Nat.succ 100 := rfl
    rw [h101, List.chain'_range_succ]
    intro m hm
    apply round3_lt_round3
    push_cast
    have hstep : ((m : ℚ) + 1) * (L / 100) = (m : ℚ) * (L / 100) + L / 100 := by
      ring
    rw [hstep]
    have hdx : (1 : ℚ)/1000 < L / 100 := by linarith
    linarith
  · rw [hmap]
    simp [List.getElem?_map, List.getElem?_range, round3_zero]
  · rw [hmap]
    simp only [List.getElem?_map, List.getElem?_range]
    norm_num
    have h2 : (100 : ℚ) * (L / 100) = L := by ring
    rw [h2, round3_eq_self hmul]

/-- Witness for C9 (amended) at beam length 5 with no loads. -/
theorem C9_witness :
    (1 : ℚ)/10 < 5 ∧
    ((generateDiagramData 5 []).length = 101 ∧
      ((generateDiagramData 5 []).map (fun p => p.position)).Chain' (· < ·) ∧
      ((generateDiagramData 5 []).map (fun p => p.position))[0]? = some 0 ∧
      ((generateDiagramData 5 []).map (fun p => p.position))[100]? = some 5) :=
  ⟨by norm_num, C9_diagram_positions 5 [] (by norm_num) ⟨5000, by norm_num⟩⟩

end Beam
